import Mathlib

/-!
Verification of the fplguru risk-classification orchestrator
(src/static/js/analyze.js and src/static/js/analyze_result.js).

The JavaScript is shallowly embedded: JSON/JS runtime values become the
inductive `JVal` (with `Option JVal` standing for a possibly-`undefined`
value), JS truthiness becomes `truthy`, property access becomes `getProp`,
and each source function is translated to a Lean definition of the same
name.  DOM/HTML assembly is a presentation concern and is not modelled;
the semantic payload of each rendering step (which leaves are produced,
with which risk, details, flags and severity) is.
-/

namespace FplGuru

/-- A JavaScript/JSON runtime value.  Numbers are modelled as integers
(no claim involves fractional numbers, NaN or -0); `undefined` is
modelled as `Option.none` at use-sites rather than as a constructor,
matching how the source only meets `undefined` through absent
properties or absent arguments. -/
inductive JVal where
  | jNull
  | jBool (b : Bool)
  | jNum (n : Int)
  | jStr (s : String)
  | jArr (xs : List JVal)
  | jObj (fields : List (String × JVal))

/-- JS truthiness of a defined value: `null`, `false`, `0` and `""` are
falsy; every object and array (including `{}` and `[]`) is truthy. -/
def truthy : JVal → Bool
  | .jNull => false
  | .jBool b => b
  | .jNum n => !(n == 0)
  | .jStr s => !(s == "")
  | .jArr _ => true
  | .jObj _ => true

/-- Truthiness of a possibly-`undefined` value (`undefined` is falsy). -/
def truthyO : Option JVal → Bool
  | some v => truthy v
  | none => false

/-- First binding of a key in an object's field list (source objects have
unique keys; JSON.parse keeps one binding per key). -/
def lookupField : List (String × JVal) → String → Option JVal
  | [], _ => none
  | (k', v) :: fs, k => if k' == k then some v else lookupField fs k

/-- Pair each array element with its decimal index, as `Object.keys` /
`Object.entries` do for JS arrays. -/
def indexEntries (i : Nat) : List JVal → List (String × JVal)
  | [] => []
  | v :: vs => (Nat.repr i, v) :: indexEntries (i + 1) vs

/-- `Object.entries(v)` for the value shapes the source can reach
(objects and arrays; primitives have no own enumerable keys). -/
def entriesOf : JVal → List (String × JVal)
  | .jObj fs => fs
  | .jArr xs => indexEntries 0 xs
  | _ => []

/-- Property access `v[k]`; `none` is JS `undefined`.  Boxed-primitive
properties such as `"abc".length` are not modelled: the source only
reads the fixed non-numeric keys `error`, `by_part`, `risk_level`,
`details`, `flags`, `raw_llm_response_text` and part keys. -/
def getProp (v : JVal) (k : String) : Option JVal :=
  lookupField (entriesOf v) k

/-- JS `a || b` for a possibly-undefined left operand whose right operand
may itself be undefined (used for `by_part[p] || by_part[q]`). -/
def jsOrO (a b : Option JVal) : Option JVal :=
  if truthyO a then a else b

/-- JS `a || b` with a defined right operand (used for `a || {}`). -/
def jsOrV (a : Option JVal) (b : JVal) : JVal :=
  match a with
  | some v => if truthy v then v else b
  | none => b

/-- The idiom `x && x.k ? x.k : null`: the property value when both `x`
and `x.k` are truthy, otherwise absent. -/
def propIfTruthy (a : Option JVal) (k : String) : Option JVal :=
  match a with
  | some av =>
    if truthy av then
      match getProp av k with
      | some v => if truthy v then some v else none
      | none => none
    else none
  | none => none

/-- `typeof v === 'object'` (true for objects, arrays and `null`). -/
def isObjectType : JVal → Bool
  | .jObj _ => true
  | .jArr _ => true
  | .jNull => true
  | _ => false

/-- `Array.isArray`. -/
def isArr : JVal → Bool
  | .jArr _ => true
  | _ => false

mutual

/-- JS `String(v)` conversion.  Array elements that are `null` join as
the empty string, as `Array.prototype.join` specifies. -/
def jsToString : JVal → String
  | .jNull => "null"
  | .jBool b => if b then "true" else "false"
  | .jNum n => toString n
  | .jStr s => s
  | .jArr xs => arrJoin xs
  | .jObj _ => "[object Object]"

/-- Comma-join of an array's elements for `String(array)`. -/
def arrJoin : List JVal → String
  | [] => ""
  | [.jNull] => ""
  | [v] => jsToString v
  | .jNull :: vs => "," ++ arrJoin vs
  | v :: vs => jsToString v ++ "," ++ arrJoin vs

end

/-- `String.prototype.toLowerCase` restricted to ASCII.  The source only
compares the lowercased string against ASCII keywords none of which
contains `k`, and `U+212A` (the one code point whose Unicode lowercase
is an ASCII letter) maps to `k`, so ASCII lowercasing and the JS
Unicode lowercasing agree on every comparison the source performs. -/
def asciiLower (s : String) : String :=
  ⟨s.data.map Char.toLower⟩

/-- `severityValue(risk)` from analyze.js lines 312-319 and
analyze_result.js lines 101-108: falsy risk is 0, else the
case-insensitive keyword mapping. -/
def severityValue (risk : Option JVal) : Nat :=
  match risk with
  | none => 0
  | some v =>
    if !(truthy v) then 0
    else
      let r := asciiLower (jsToString v)
      if r = "low" then 1
      else if r = "moderate" ∨ r = "medium" ∨ r = "amber" then 2
      else if r = "high" ∨ r = "red" then 3
      else 0

/-- `riskToBadgeClass(risk)` from both files: badge name for a risk. -/
def riskToBadgeClass (risk : Option JVal) : String :=
  match risk with
  | none => "unknown"
  | some v =>
    if !(truthy v) then "unknown"
    else
      let r := asciiLower (jsToString v)
      if r = "low" then "low"
      else if r = "moderate" ∨ r = "medium" ∨ r = "amber" then "moderate"
      else if r = "high" ∨ r = "red" then "high"
      else "unknown"

/-- The semantic content of one rendered leaf: the risk value used, the
details value (absent when falsy or missing) and the flags array. -/
structure RLeaf where
  risk : JVal
  details : Option JVal
  flags : List JVal

/-- `renderLeafAnalysis(a)` from analyze.js lines 301-310 and
analyze_result.js lines 90-99, keeping the semantic fields and
dropping only the HTML string assembly. -/
def renderLeafAnalysis (a : Option JVal) : RLeaf :=
  { risk := jsOrV (propIfTruthy a "risk_level") (.jStr "unknown")
    details := propIfTruthy a "details"
    flags :=
      match a with
      | some av =>
        if truthy av then
          match getProp av "flags" with
          | some (.jArr xs) => xs
          | _ => []
        else []
      | none => [] }

/-- `overallSeverity` accumulation: the source initializes the severity
to 0 and folds `Math.max` over the observed severities. -/
def aggregate (l : List Nat) : Nat :=
  l.foldl Nat.max 0

/-- The leaves a part renders: either one leaf per entity key (the
`for (const [icao, a] of Object.entries(partVal))` branch) or a single
leaf for the whole part (the `else` branch). -/
inductive LeafSet where
  | entityLeaves (xs : List (String × RLeaf))
  | singleLeaf (l : RLeaf)

/-- Number of leaves a `LeafSet` carries. -/
def leafCount : LeafSet → Nat
  | .entityLeaves xs => xs.length
  | .singleLeaf _ => 1

/-- Part severity as the source computes it: `Math.max` folded from 0
over each rendered leaf's `severityValue`. -/
def leavesSeverity : LeafSet → Nat
  | .entityLeaves xs => aggregate (xs.map fun e => severityValue (some e.2.risk))
  | .singleLeaf l => Nat.max 0 (severityValue (some l.risk))

/-- The per-part shape disambiguation shared by the two loops of
analyze.js (lines 342-352 and 392-402): a truthy, object-typed,
non-empty candidate without a truthy `risk_level` renders one leaf per
entry (each entry value defaulted by `a || {}`), anything else renders
`renderLeafAnalysis(partVal || {})` as a single leaf. -/
def disambiguate : Option JVal → LeafSet
  | some v =>
    if truthy v && isObjectType v && !((entriesOf v).isEmpty)
        && !(truthyO (getProp v "risk_level")) then
      .entityLeaves ((entriesOf v).map fun e =>
        (e.1, renderLeafAnalysis (some (jsOrV (some e.2) (.jObj [])))))
    else .singleLeaf (renderLeafAnalysis (some (jsOrV (some v) (.jObj []))))
  | none => .singleLeaf (renderLeafAnalysis (some (.jObj [])))

/-- `wp.part.replace('_alternates','')`: JS `String.replace` with a
string pattern replaces only the first occurrence. -/
def replaceFirstAux (pat : List Char) : List Char → List Char
  | [] => []
  | c :: cs =>
    if pat.isPrefixOf (c :: cs) then (c :: cs).drop pat.length
    else c :: replaceFirstAux pat cs

/-- Strip the first occurrence of `"_alternates"` from a part key. -/
def stripAlternates (p : String) : String :=
  ⟨replaceFirstAux "_alternates".data p.data⟩

/-- Candidate lookup of the weather loop (analyze.js line 341):
`res.by_part[wp.part] || res.by_part[wp.part.replace('_alternates','')]`. -/
def weatherCandidate (bp : JVal) (p : String) : Option JVal :=
  jsOrO (getProp bp p) (getProp bp (stripAlternates p))

/-- Candidate lookup of the NOTAM loop (analyze.js line 391):
`res.by_part[np.part] || {}` — no alias fallback. -/
def notamsCandidate (bp : JVal) (p : String) : Option JVal :=
  jsOrO (getProp bp p) (some (.jObj []))

/-- `if (res.raw_llm_response_text) ...`: the raw assistant text is
attached to the part exactly when truthy, unmodified. -/
def rawTextOf (res : JVal) : Option JVal :=
  match getProp res "raw_llm_response_text" with
  | some v => if truthy v then some v else none
  | none => none

/-- Outcome of one task's loop iteration: the error branch, the
`by_part` rendering branch, or the `No observations.` branch. -/
inductive TaskRender where
  | errorOut (msg : JVal)
  | partOut (leaves : LeafSet) (rawText : Option JVal)
  | noObs

/-- Leaves shown for a task outcome (the error branch shows one inline
error marker). -/
def leafCountT : TaskRender → Nat
  | .errorOut _ => 1
  | .partOut ls _ => leafCount ls
  | .noObs => 0

/-- Severity of a task outcome: the error and no-observation branches
leave `overallSeverity` at its initial 0. -/
def renderSeverity : TaskRender → Nat
  | .errorOut _ => 0
  | .partOut ls _ => leavesSeverity ls
  | .noObs => 0

/-- One iteration of the weather loop of analyze.js (lines 330-368),
as a function of the part key and the value `callSectionAnalysis`
returned. -/
def analyzeWeatherPart (p : String) : Option JVal → TaskRender
  | none => .noObs
  | some r =>
    if truthy r && truthyO (getProp r "error") then
      .errorOut ((getProp r "error").getD .jNull)
    else if truthy r && truthyO (getProp r "by_part") then
      .partOut (disambiguate (weatherCandidate ((getProp r "by_part").getD .jNull) p))
        (rawTextOf r)
    else .noObs

/-- One iteration of the NOTAM loop of analyze.js (lines 380-417). -/
def analyzeNotamsPart (p : String) : Option JVal → TaskRender
  | none => .noObs
  | some r =>
    if truthy r && truthyO (getProp r "error") then
      .errorOut ((getProp r "error").getD .jNull)
    else if truthy r && truthyO (getProp r "by_part") then
      .partOut (disambiguate (notamsCandidate ((getProp r "by_part").getD .jNull) p))
        (rawTextOf r)
    else .noObs

/-- Part keys of the weather catalog (`weatherParts`, analyze.js
lines 322-327), in source order. -/
def weatherPartKeys : List String :=
  ["departure", "destination", "destination_alternate", "enroute_alternates"]

/-- Part keys of the NOTAM catalog (`notamParts`, analyze.js
lines 371-377), in source order. -/
def notamPartKeys : List String :=
  ["departure", "destination", "enroute_alternates", "company", "area"]

/-- The weather loop over an assignment of per-task response values:
each iteration reads only its own task's response. -/
def runWeather (f : String → JVal) : List (String × TaskRender) :=
  weatherPartKeys.map fun p => (p, analyzeWeatherPart p (some (f p)))

/-- The NOTAM loop over an assignment of per-task response values. -/
def runNotams (f : String → JVal) : List (String × TaskRender) :=
  notamPartKeys.map fun p => (p, analyzeNotamsPart p (some (f p)))

/-- Outcome of one `fetch` of `/api/analyze_section/`: the promise
rejects (transport failure), or a response arrives with an `ok` flag,
a status, and a body that `res.json()` either parses or rejects on. -/
inductive FetchOutcome where
  | netFail (msg : String)
  | httpResp (ok : Bool) (status : Nat) (body : Except String JVal)

/-- The `try` body of `callSectionAnalysis`: throws (as `.error`) on
transport failure, on `!res.ok` (with message `'HTTP ' + res.status`),
and on a non-JSON body. -/
def callBody : FetchOutcome → Except String JVal
  | .netFail m => .error m
  | .httpResp ok st body =>
    if !ok then .error ("HTTP " ++ Nat.repr st)
    else body

/-- `callSectionAnalysis` from analyze.js lines 215-235 and
analyze_result.js lines 1-16: the surrounding `catch` turns every
throw into the returned value `{error: e.message}`, so the function
always returns a value. -/
def callSectionAnalysis (o : FetchOutcome) : JVal :=
  match callBody o with
  | .ok d => d
  | .error m => .jObj [("error", .jStr m)]

/-- The NOTAM loop driven by actual fetch outcomes, together with the
trace of parts for which a classification call was issued: the loop
body performs exactly one `callSectionAnalysis` per iteration. -/
def runNotamsFetch (fetch : String → FetchOutcome) :
    List (String × TaskRender) × List String :=
  notamPartKeys.foldr
    (fun p acc =>
      ((p, analyzeNotamsPart p (some (callSectionAnalysis (fetch p)))) :: acc.1,
       p :: acc.2))
    ([], [])

/-- The weather loop driven by actual fetch outcomes, with its call
trace. -/
def runWeatherFetch (fetch : String → FetchOutcome) :
    List (String × TaskRender) × List String :=
  weatherPartKeys.foldr
    (fun p acc =>
      ((p, analyzeWeatherPart p (some (callSectionAnalysis (fetch p)))) :: acc.1,
       p :: acc.2))
    ([], [])

/-- Semantic fields of the legacy single-section rendering of
analyze_result.js (lines 162-186): risk, details, flags and raw text as
extracted, plus whether the `No observations.` line is appended. -/
structure LegacyRender where
  risk : Option JVal
  details : Option JVal
  flags : List JVal
  raw : Option JVal
  noObservations : Bool

/-- The legacy whole-response leaf extraction of analyze_result.js. -/
def legacyRender (result : Option JVal) : LegacyRender :=
  let risk := propIfTruthy result "risk_level"
  let details := propIfTruthy result "details"
  let flags :=
    match result with
    | some rv =>
      if truthy rv then
        match getProp rv "flags" with
        | some (.jArr xs) => xs
        | _ => []
      else []
    | none => []
  let raw := propIfTruthy result "raw_llm_response_text"
  { risk := risk, details := details, flags := flags, raw := raw
    noObservations := details.isNone && flags.isEmpty && raw.isNone }

/-- The ICAO-key test of analyze_result.js line 127:
`/^[A-Z]{4}$/.test(k) || k === 'GENERIC'`. -/
def isIcaoKey (k : String) : Bool :=
  (k.length == 4 && k.data.all fun c => 'A' ≤ c && c ≤ 'Z') || k == "GENERIC"

/-- Per-part disambiguation of the analyze_result.js multi-part path
(lines 126-139), which additionally requires every key of an entity map
to look like an ICAO identifier. -/
def disambiguateR (pv : JVal) : LeafSet :=
  if truthy pv && isObjectType pv && !(truthyO (getProp pv "risk_level"))
      && !((entriesOf pv).isEmpty)
      && ((entriesOf pv).all fun e => isIcaoKey e.1) then
    .entityLeaves ((entriesOf pv).map fun e =>
      (e.1, renderLeafAnalysis (some (jsOrV (some e.2) (.jObj [])))))
  else .singleLeaf (renderLeafAnalysis (some (jsOrV (some pv) (.jObj []))))

/-- Rendering of a whole section response in analyze_result.js: the
error branch, the `by_part` branch (one entry per present part key), or
the legacy whole-response branch. -/
inductive SectionRender where
  | errText (msg : JVal)
  | multiPart (parts : List (String × LeafSet)) (rawText : Option JVal)
  | legacy (l : LegacyRender)

/-- The response dispatch of analyze_result.js (lines 115-186). -/
def sectionDispatch : Option JVal → SectionRender
  | none => .legacy (legacyRender none)
  | some r =>
    if truthy r && truthyO (getProp r "error") then
      .errText ((getProp r "error").getD .jNull)
    else if truthy r && truthyO (getProp r "by_part")
        && isObjectType ((getProp r "by_part").getD .jNull) then
      .multiPart
        ((entriesOf ((getProp r "by_part").getD .jNull)).map fun e =>
          (e.1, disambiguateR e.2))
        (rawTextOf r)
    else .legacy (legacyRender (some r))

/-! Helper lemmas -/

theorem truthy_jObj (fs : List (String × JVal)) : truthy (.jObj fs) = true := rfl

theorem truthy_of_prop (v : JVal) (k : String)
    (h : truthyO (getProp v k) = true) : truthy v = true := by
  cases v <;> simp_all [getProp, entriesOf, lookupField, truthyO, truthy]

theorem natMaxZero (c : Nat) : Nat.max 0 c = c := Nat.zero_max c

theorem natMaxComm (a b : Nat) : Nat.max a b = Nat.max b a := Nat.max_comm a b

theorem natMaxAssoc (a b c : Nat) :
    Nat.max (Nat.max a b) c = Nat.max a (Nat.max b c) := Nat.max_assoc a b c

theorem natMaxSelf (a : Nat) : Nat.max a a = a := Nat.max_self a

theorem foldl_max_eq (l : List Nat) (a : Nat) :
    l.foldl Nat.max a = Nat.max a (l.foldl Nat.max 0) := by
  induction l generalizing a with
  | nil => simp
  | cons c t ih =>
    simp only [List.foldl]
    rw [ih (Nat.max a c), ih (Nat.max 0 c), natMaxZero, natMaxAssoc]

theorem aggregate_cons (a : Nat) (l : List Nat) :
    aggregate (a :: l) = Nat.max a (aggregate l) := by
  simp only [aggregate, List.foldl]
  rw [foldl_max_eq, natMaxZero]

theorem severityValue_jStr (s : String) :
    severityValue (some (.jStr s)) =
      (if asciiLower s = "low" then 1
       else if asciiLower s = "moderate" ∨ asciiLower s = "medium" ∨ asciiLower s = "amber" then 2
       else if asciiLower s = "high" ∨ asciiLower s = "red" then 3
       else 0) := by
  by_cases h : s = ""
  · subst h; decide
  · simp [severityValue, jsToString, truthy, h]

/-! Claim theorems -/

/-- C2 (confirmed): `severityValue` is total and case-insensitive: every
string input yields a value in 0..3; any casing of `low` maps to 1, any
casing of `moderate`, `medium` or `amber` to 2, any casing of `high` or
`red` to 3; every other input, including the empty string and an
undefined value, maps to 0. -/
theorem C2_severityValue_total :
    (∀ s : String, severityValue (some (.jStr s)) ≤ 3)
    ∧ (∀ s : String, asciiLower s = "low" → severityValue (some (.jStr s)) = 1)
    ∧ (∀ s : String,
        (asciiLower s = "moderate" ∨ asciiLower s = "medium" ∨ asciiLower s = "amber") →
        severityValue (some (.jStr s)) = 2)
    ∧ (∀ s : String, (asciiLower s = "high" ∨ asciiLower s = "red") →
        severityValue (some (.jStr s)) = 3)
    ∧ (∀ s : String,
        ¬(asciiLower s = "low" ∨ asciiLower s = "moderate" ∨ asciiLower s = "medium"
          ∨ asciiLower s = "amber" ∨ asciiLower s = "high" ∨ asciiLower s = "red") →
        severityValue (some (.jStr s)) = 0)
    ∧ severityValue (some (.jStr "")) = 0
    ∧ severityValue none = 0 := by
  refine ⟨?_, ?_, ?_, ?_, ?_, rfl, rfl⟩
  · intro s; rw [severityValue_jStr]; split_ifs <;> omega
  · intro s h; rw [severityValue_jStr]; simp [h]
  · intro s h
    rw [severityValue_jStr]
    rcases h with h | h | h <;> simp [h]
  · intro s h
    rw [severityValue_jStr]
    rcases h with h | h <;> simp [h]
  · intro s h
    push_neg at h
    obtain ⟨h1, h2, h3, h4, h5, h6⟩ := h
    rw [severityValue_jStr]
    simp [h1, h2, h3, h4, h5, h6]

/-- Witness for C2 at concrete inputs: `"HIGH" ↦ 3`, `"Amber" ↦ 2`,
`"none of these" ↦ 0`. -/
theorem C2_severityValue_total_witness :
    severityValue (some (.jStr "HIGH")) = 3
    ∧ severityValue (some (.jStr "Amber")) = 2
    ∧ severityValue (some (.jStr "clear skies")) = 0 :=
  ⟨C2_severityValue_total.2.2.2.1 "HIGH" (by decide),
   C2_severityValue_total.2.2.1 "Amber" (by decide),
   C2_severityValue_total.2.2.2.2.1 "clear skies" (by decide)⟩

/-- C3 (confirmed): severity aggregation is the maximum of the input
sequence (empty input aggregates to 0); the underlying binary fold is
associative, commutative and idempotent, a singleton (or an already
aggregated value) aggregates to itself, and aggregating per-group maxima
hierarchically equals aggregating all leaves at once, which is how the
source combines leaf severities into part and section severities. -/
theorem C3_aggregate_max :
    aggregate [] = 0
    ∧ (∀ l : List Nat, aggregate l = l.foldr Nat.max 0)
    ∧ (∀ l₁ l₂ : List Nat, aggregate (l₁ ++ l₂) = Nat.max (aggregate l₁) (aggregate l₂))
    ∧ (∀ a b : Nat, aggregate [a, b] = aggregate [b, a])
    ∧ (∀ a : Nat, aggregate [a, a] = aggregate [a])
    ∧ (∀ a : Nat, aggregate [a] = a)
    ∧ (∀ l : List Nat, aggregate [aggregate l] = aggregate l)
    ∧ (∀ ll : List (List Nat), aggregate (ll.map aggregate) = aggregate ll.flatten)
    ∧ (∀ xs : List (String × RLeaf),
        leavesSeverity (.entityLeaves xs)
          = aggregate (xs.map fun e => severityValue (some e.2.risk))) := by
  have hfoldr : ∀ l : List Nat, aggregate l = l.foldr Nat.max 0 := by
    intro l
    induction l with
    | nil => rfl
    | cons a t ih => rw [aggregate_cons, List.foldr, ih]
  have happ : ∀ l₁ l₂ : List Nat,
      aggregate (l₁ ++ l₂) = Nat.max (aggregate l₁) (aggregate l₂) := by
    intro l₁ l₂
    induction l₁ with
    | nil => simp [aggregate]
    | cons a t ih =>
      rw [List.cons_append, aggregate_cons, ih, aggregate_cons, natMaxAssoc]
  have hsingle : ∀ a : Nat, aggregate [a] = a := by
    intro a
    rw [aggregate_cons]
    simp [aggregate]
  refine ⟨rfl, hfoldr, happ, ?_, ?_, hsingle, ?_, ?_, fun _ => rfl⟩
  · intro a b
    rw [aggregate_cons, hsingle, aggregate_cons, hsingle, natMaxComm]
  · intro a
    rw [aggregate_cons, hsingle, natMaxSelf]
  · intro l; rw [hsingle]
  · intro ll
    induction ll with
    | nil => rfl
    | cons l t ih => rw [List.map_cons, aggregate_cons, List.flatten_cons, happ, ih]

/-- C4 (confirmed): `callSectionAnalysis` never raises to its caller —
a transport failure, a non-2xx status and a non-JSON body each return
the value `{error: message}` (with message `HTTP <status>` for non-2xx),
a 2xx JSON response returns its parsed body, and each run of a section
loop issues exactly one classification call per catalog task. -/
theorem C4_call_never_raises :
    (∀ m : String, callSectionAnalysis (.netFail m) = .jObj [("error", .jStr m)])
    ∧ (∀ (st : Nat) (b : Except String JVal),
        callSectionAnalysis (.httpResp false st b)
          = .jObj [("error", .jStr ("HTTP " ++ Nat.repr st))])
    ∧ (∀ (st : Nat) (m : String),
        callSectionAnalysis (.httpResp true st (.error m)) = .jObj [("error", .jStr m)])
    ∧ (∀ (st : Nat) (d : JVal), callSectionAnalysis (.httpResp true st (.ok d)) = d)
    ∧ (∀ fetch : String → FetchOutcome, (runNotamsFetch fetch).2 = notamPartKeys)
    ∧ (∀ fetch : String → FetchOutcome, (runWeatherFetch fetch).2 = weatherPartKeys)
    ∧ notamPartKeys.Nodup ∧ weatherPartKeys.Nodup :=
  ⟨fun _ => rfl, fun _ _ => rfl, fun _ _ => rfl, fun _ _ => rfl,
   fun _ => rfl, fun _ => rfl, by decide, by decide⟩

/-- A `by_part` candidate that has a `risk_level` field (with the falsy
value `""`) next to an entity key: the source's truthiness test sends it
to the entity-map branch, not the single-leaf branch. -/
def X0 : JVal :=
  .jObj [("risk_level", .jStr ""), ("KJFK", .jObj [("risk_level", .jStr "high")])]

/-- C1 (counterexample): `X0` has a `risk_level` field, yet normalization
produces two entity leaves (keys `risk_level` and `KJFK`), not exactly
one leaf for the whole part — the claim's field-presence test is
actually a truthiness test. -/
theorem C1_counterexample :
    getProp X0 "risk_level" = some (.jStr "")
    ∧ disambiguate (some X0)
        = .entityLeaves [("risk_level", ⟨.jStr "unknown", none, []⟩),
                         ("KJFK", ⟨.jStr "high", none, []⟩)]
    ∧ leafCount (disambiguate (some X0)) = 2 :=
  ⟨rfl, rfl, rfl⟩

/-- C1 (amended): if the candidate `X` has a truthy `risk_level` field,
normalization produces exactly one leaf for the whole part; if `X` is a
non-empty object whose `risk_level` field is absent or falsy, it
produces one independent entity leaf per (key, value) pair, and the
part's overall severity is the fold of the entity leaves' severities. -/
theorem C1_amended :
    (∀ v : JVal, truthyO (getProp v "risk_level") = true →
        disambiguate (some v) = .singleLeaf (renderLeafAnalysis (some v)))
    ∧ (∀ fs : List (String × JVal), fs ≠ [] →
        truthyO (getProp (.jObj fs) "risk_level") = false →
        disambiguate (some (.jObj fs))
          = .entityLeaves (fs.map fun e =>
              (e.1, renderLeafAnalysis (some (jsOrV (some e.2) (.jObj [])))))
        ∧ leavesSeverity (disambiguate (some (.jObj fs)))
          = aggregate (fs.map fun e =>
              severityValue (some (renderLeafAnalysis (some (jsOrV (some e.2) (.jObj [])))).risk))) := by
  constructor
  · intro v h
    have hv : truthy v = true := truthy_of_prop v _ h
    simp [disambiguate, h, jsOrV, hv]
  · intro fs hne hf
    have heq : disambiguate (some (.jObj fs))
        = .entityLeaves (fs.map fun e =>
            (e.1, renderLeafAnalysis (some (jsOrV (some e.2) (.jObj []))))) := by
      cases fs with
      | nil => exact absurd rfl hne
      | cons e t => simp [disambiguate, hf, entriesOf, truthy, isObjectType]
    refine ⟨heq, ?_⟩
    rw [heq]
    simp only [leavesSeverity, List.map_map]
    rfl

/-- Witness for C1's amended statement at concrete inputs: a leaf-shaped
candidate with truthy `risk_level` gives one whole-part leaf, and a
two-airport entity map gives two leaves whose severity fold is 3. -/
theorem C1_amended_witness :
    disambiguate (some (.jObj [("risk_level", .jStr "low")]))
      = .singleLeaf (renderLeafAnalysis (some (.jObj [("risk_level", .jStr "low")])))
    ∧ disambiguate (some (.jObj [("KJFK", .jObj [("risk_level", .jStr "high")]),
                                 ("KEWR", .jObj [("risk_level", .jStr "low")])]))
      = .entityLeaves
          ([("KJFK", .jObj [("risk_level", .jStr "high")]),
            ("KEWR", .jObj [("risk_level", .jStr "low")])].map fun e =>
            (e.1, renderLeafAnalysis (some (jsOrV (some e.2) (.jObj []))))) :=
  ⟨C1_amended.1 _ (by decide),
   (C1_amended.2 [("KJFK", .jObj [("risk_level", .jStr "high")]),
                  ("KEWR", .jObj [("risk_level", .jStr "low")])]
      (List.cons_ne_nil _ _) (by decide)).1⟩

/-- C5 (confirmed): when exactly the `company` notam task yields an
error value, the run still contains every part in catalog order, every
sibling part's outcome is identical to a run in which `company`
succeeded, and `company` carries a severity-0 (Unknown) error marker
holding the error message; weather tasks are untouched for any outcome
assignment. -/
theorem C5_partial_failure_isolated (f g : String → JVal) (msg : String)
    (hm : msg ≠ "")
    (hf : f "company" = .jObj [("error", .jStr msg)])
    (hfg : ∀ p, p ≠ "company" → f p = g p) :
    runNotams f =
      [("departure", analyzeNotamsPart "departure" (some (g "departure"))),
       ("destination", analyzeNotamsPart "destination" (some (g "destination"))),
       ("enroute_alternates", analyzeNotamsPart "enroute_alternates" (some (g "enroute_alternates"))),
       ("company", .errorOut (.jStr msg)),
       ("area", analyzeNotamsPart "area" (some (g "area")))]
    ∧ (runNotams f).map Prod.fst = notamPartKeys
    ∧ renderSeverity (.errorOut (.jStr msg)) = 0
    ∧ leafCountT (.errorOut (.jStr msg)) = 1
    ∧ (∀ h : String → JVal, (runWeather h).map Prod.fst = weatherPartKeys) := by
  have hcompany : analyzeNotamsPart "company" (some (f "company"))
      = .errorOut (.jStr msg) := by
    rw [hf]
    simp [analyzeNotamsPart, getProp, entriesOf, lookupField, truthyO, truthy, hm]
  refine ⟨?_, ?_, rfl, rfl, ?_⟩
  · simp only [runNotams, notamPartKeys, List.map]
    rw [hfg "departure" (by decide), hfg "destination" (by decide),
        hfg "enroute_alternates" (by decide), hfg "area" (by decide), hcompany]
  · simp [runNotams, notamPartKeys]
  · intro h
    simp [runWeather, weatherPartKeys]

/-- Concrete failing assignment for the C5 witness: `company` errors,
every other task returns the same successful response. -/
def okNotamRes : JVal :=
  .jObj [("by_part", .jObj [("departure", .jObj [("risk_level", .jStr "low")])])]

/-- Outcome assignment in which the company task fails. -/
def failAssign (p : String) : JVal :=
  if p = "company" then .jObj [("error", .jStr "HTTP 500")] else okNotamRes

/-- Outcome assignment in which every task succeeds. -/
def okAssign (_ : String) : JVal := okNotamRes

/-- Witness for C5 at the concrete assignments `failAssign`/`okAssign`. -/
theorem C5_partial_failure_isolated_witness :
    runNotams failAssign =
      [("departure", analyzeNotamsPart "departure" (some (okAssign "departure"))),
       ("destination", analyzeNotamsPart "destination" (some (okAssign "destination"))),
       ("enroute_alternates", analyzeNotamsPart "enroute_alternates" (some (okAssign "enroute_alternates"))),
       ("company", .errorOut (.jStr "HTTP 500")),
       ("area", analyzeNotamsPart "area" (some (okAssign "area")))]
    ∧ (runNotams failAssign).map Prod.fst = notamPartKeys
    ∧ renderSeverity (.errorOut (.jStr "HTTP 500")) = 0
    ∧ leafCountT (.errorOut (.jStr "HTTP 500")) = 1
    ∧ (∀ h : String → JVal, (runWeather h).map Prod.fst = weatherPartKeys) :=
  C5_partial_failure_isolated failAssign okAssign "HTTP 500" (by decide) rfl
    (fun p hp => if_neg hp)

/-- A response whose `by_part` is present but holds nothing for the
`departure` part. -/
def res6 : JVal := .jObj [("by_part", .jObj [])]

/-- C6 (counterexample): with `by_part` present but the candidate for
`departure` missing, the weather loop renders one placeholder leaf with
risk `unknown` — one leaf, not the zero leaves the claim states. -/
theorem C6_counterexample :
    getProp res6 "by_part" = some (.jObj [])
    ∧ analyzeWeatherPart "departure" (some res6)
        = .partOut (.singleLeaf ⟨.jStr "unknown", none, []⟩) none
    ∧ leafCountT (analyzeWeatherPart "departure" (some res6)) = 1
    ∧ renderSeverity (analyzeWeatherPart "departure" (some res6)) = 0 :=
  ⟨rfl, rfl, rfl, rfl⟩

/-- C6 (amended): a candidate that is not one of the two recognized
shapes — missing, falsy, an empty object or array, or a truthy
non-object (an unrecognized shape) — always disambiguates to exactly one
placeholder leaf with risk `unknown`, no details, no flags and severity
0; both section loops pass their candidate to this disambiguation
whenever the response has a truthy `by_part` and no truthy `error`; and
the zero-leaf `No observations` outcome occurs exactly when the
response is undefined or carries neither a truthy `error` nor a truthy
`by_part`. -/
theorem C6_amended :
    disambiguate none = .singleLeaf ⟨.jStr "unknown", none, []⟩
    ∧ (∀ v : JVal, truthy v = false →
        disambiguate (some v) = .singleLeaf ⟨.jStr "unknown", none, []⟩)
    ∧ (∀ v : JVal, isObjectType v = true → entriesOf v = [] →
        disambiguate (some v) = .singleLeaf ⟨.jStr "unknown", none, []⟩)
    ∧ (∀ v : JVal, truthy v = true → isObjectType v = false →
        disambiguate (some v) = .singleLeaf ⟨.jStr "unknown", none, []⟩)
    ∧ leafCount (.singleLeaf ⟨.jStr "unknown", none, []⟩) = 1
    ∧ leavesSeverity (.singleLeaf ⟨.jStr "unknown", none, []⟩) = 0
    ∧ (∀ (r : JVal) (p : String), truthy r = true →
        truthyO (getProp r "error") = false → truthyO (getProp r "by_part") = true →
        analyzeWeatherPart p (some r)
          = .partOut (disambiguate (weatherCandidate ((getProp r "by_part").getD .jNull) p))
              (rawTextOf r)
        ∧ analyzeNotamsPart p (some r)
          = .partOut (disambiguate (notamsCandidate ((getProp r "by_part").getD .jNull) p))
              (rawTextOf r))
    ∧ (∀ (r : JVal) (p : String),
        (analyzeWeatherPart p (some r) = .noObs ↔
          (truthy r && truthyO (getProp r "error")) = false
          ∧ (truthy r && truthyO (getProp r "by_part")) = false)
        ∧ (analyzeNotamsPart p (some r) = .noObs ↔
          (truthy r && truthyO (getProp r "error")) = false
          ∧ (truthy r && truthyO (getProp r "by_part")) = false))
    ∧ (∀ p : String, analyzeWeatherPart p none = .noObs ∧ analyzeNotamsPart p none = .noObs)
    ∧ leafCountT .noObs = 0 := by
  refine ⟨rfl, ?_, ?_, ?_, rfl, rfl, ?_, ?_, fun _ => ⟨rfl, rfl⟩, rfl⟩
  · intro v hv
    have h : disambiguate (some v) = .singleLeaf (renderLeafAnalysis (some (.jObj []))) := by
      simp [disambiguate, jsOrV, hv]
    rw [h]
    rfl
  · intro v ho he
    cases v with
    | jNull => rfl
    | jBool b => simp [isObjectType] at ho
    | jNum n => simp [isObjectType] at ho
    | jStr s => simp [isObjectType] at ho
    | jArr xs =>
      cases xs with
      | nil => rfl
      | cons a t => simp [entriesOf, indexEntries] at he
    | jObj fs =>
      have hfs : fs = [] := he
      subst hfs
      rfl
  · intro v hv ho
    cases v with
    | jNull => simp [truthy] at hv
    | jArr xs => simp [isObjectType] at ho
    | jObj fs => simp [isObjectType] at ho
    | jBool b =>
      cases b with
      | false => simp [truthy] at hv
      | true => rfl
    | jNum n =>
      have h : disambiguate (some (.jNum n))
          = .singleLeaf (renderLeafAnalysis (some (.jNum n))) := by
        simp [disambiguate, isObjectType, jsOrV, hv]
      rw [h]
      simp [renderLeafAnalysis, propIfTruthy, getProp, entriesOf, lookupField, jsOrV, hv]
    | jStr s =>
      have h : disambiguate (some (.jStr s))
          = .singleLeaf (renderLeafAnalysis (some (.jStr s))) := by
        simp [disambiguate, isObjectType, jsOrV, hv]
      rw [h]
      simp [renderLeafAnalysis, propIfTruthy, getProp, entriesOf, lookupField, jsOrV, hv]
  · intro r p h1 h2 h3
    constructor <;> simp [analyzeWeatherPart, analyzeNotamsPart, h1, h2, h3]
  · intro r p
    constructor <;>
      · simp only [analyzeWeatherPart, analyzeNotamsPart]
        split_ifs with h1 h2 <;> simp_all

/-- Witness for C6's amended statement: a truthy-string candidate and an
empty-array candidate both give the placeholder leaf; a response whose
`by_part` is present but empty reaches the disambiguation; and a
bare-leaf response with no `by_part` yields the zero-leaf outcome. -/
theorem C6_amended_witness :
    disambiguate (some (.jStr "gibberish")) = .singleLeaf ⟨.jStr "unknown", none, []⟩
    ∧ disambiguate (some (.jArr [])) = .singleLeaf ⟨.jStr "unknown", none, []⟩
    ∧ disambiguate (some .jNull) = .singleLeaf ⟨.jStr "unknown", none, []⟩
    ∧ analyzeNotamsPart "area" (some (.jObj [("by_part", .jObj [])]))
        = .partOut
            (disambiguate (notamsCandidate
              ((getProp (.jObj [("by_part", .jObj [])]) "by_part").getD .jNull) "area"))
            (rawTextOf (.jObj [("by_part", .jObj [])]))
    ∧ analyzeWeatherPart "departure" (some (.jObj [("risk_level", .jStr "low")])) = .noObs :=
  ⟨C6_amended.2.2.2.1 (.jStr "gibberish") rfl rfl,
   C6_amended.2.2.1 (.jArr []) rfl rfl,
   C6_amended.2.1 .jNull rfl,
   (C6_amended.2.2.2.2.2.2.1 (.jObj [("by_part", .jObj [])]) "area" rfl rfl rfl).2,
   ((C6_amended.2.2.2.2.2.2.2.1 (.jObj [("risk_level", .jStr "low")]) "departure").1).mpr
     ⟨rfl, rfl⟩⟩

/-- A response whose `by_part` holds the stripped legacy key `enroute`
only. -/
def res7 : JVal :=
  .jObj [("by_part", .jObj [("enroute", .jObj [("risk_level", .jStr "high")])])]

/-- C7 (counterexample): on the same response, the weather loop's alias
fallback finds the `enroute` value for task part `enroute_alternates`
(severity 3), while the NOTAM loop — whose task list also contains
`enroute_alternates` — performs no fallback and renders an unknown
placeholder (severity 0): the fallback does not apply to every task of
both sections. -/
theorem C7_counterexample :
    analyzeNotamsPart "enroute_alternates" (some res7)
      = .partOut (.singleLeaf ⟨.jStr "unknown", none, []⟩) none
    ∧ renderSeverity (analyzeNotamsPart "enroute_alternates" (some res7)) = 0
    ∧ analyzeWeatherPart "enroute_alternates" (some res7)
      = .partOut (.singleLeaf ⟨.jStr "high", none, []⟩) none
    ∧ renderSeverity (analyzeWeatherPart "enroute_alternates" (some res7)) = 3
    ∧ "enroute_alternates" ∈ notamPartKeys :=
  ⟨rfl, rfl, rfl, rfl, by decide⟩

/-- C7 (amended): the alias fallback `by_part[stripSuffix(part,
"_alternates")]` applies to weather-section tasks whenever the primary
value is absent (or present but falsy); NOTAM-section tasks perform no
fallback — a missing primary key behaves as an empty candidate
regardless of what the stripped key holds. -/
theorem C7_amended :
    (∀ (bp : JVal) (p : String), getProp bp p = none →
        weatherCandidate bp p = getProp bp (stripAlternates p))
    ∧ (∀ (bp : JVal) (p : String) (v : JVal),
        getProp bp p = some v → truthy v = false →
        weatherCandidate bp p = getProp bp (stripAlternates p))
    ∧ (∀ (bp : JVal) (p : String), getProp bp p = none →
        notamsCandidate bp p = some (.jObj []))
    ∧ (∀ v : JVal,
        analyzeNotamsPart "enroute_alternates"
          (some (.jObj [("by_part", .jObj [("enroute", v)])]))
          = .partOut (.singleLeaf (renderLeafAnalysis (some (.jObj [])))) none) := by
  refine ⟨?_, ?_, ?_, ?_⟩
  · intro bp p h
    simp [weatherCandidate, jsOrO, truthyO, h]
  · intro bp p v h hv
    simp [weatherCandidate, jsOrO, truthyO, h, hv]
  · intro bp p h
    simp [notamsCandidate, jsOrO, truthyO, h]
  · intro v
    simp [analyzeNotamsPart, getProp, entriesOf, lookupField, truthyO, truthy,
          notamsCandidate, jsOrO, disambiguate, rawTextOf, jsOrV, isObjectType]

/-- Witness for C7's amended statement at a concrete `by_part` carrying
only the stripped key. -/
theorem C7_amended_witness :
    weatherCandidate (.jObj [("enroute", .jObj [("risk_level", .jStr "high")])])
        "enroute_alternates"
      = getProp (.jObj [("enroute", .jObj [("risk_level", .jStr "high")])])
          (stripAlternates "enroute_alternates")
    ∧ notamsCandidate (.jObj [("enroute", .jObj [("risk_level", .jStr "high")])])
        "enroute_alternates"
      = some (.jObj [])
    ∧ analyzeNotamsPart "enroute_alternates"
        (some (.jObj [("by_part", .jObj [("enroute", .jObj [("risk_level", .jStr "high")])])]))
        = .partOut (.singleLeaf (renderLeafAnalysis (some (.jObj [])))) none :=
  ⟨C7_amended.1 _ _ rfl, C7_amended.2.2.1 _ _ rfl,
   C7_amended.2.2.2 (.jObj [("risk_level", .jStr "high")])⟩

/-- The spec's legacy-shape example: a bare leaf response with no
`by_part`. -/
def E8 : JVal :=
  .jObj [("risk_level", .jStr "moderate"), ("flags", .jArr [.jStr "turbulence"])]

/-- C8 (confirmed): a response without a `by_part` field (and no error)
takes the legacy whole-response path, which treats the response itself
as a single leaf; on the spec's example the leaf carries risk
`moderate` (severity 2, badge `moderate`) and the given flags. -/
theorem C8_legacy_single_leaf (fs : List (String × JVal))
    (herr : lookupField fs "error" = none)
    (hbp : lookupField fs "by_part" = none) :
    sectionDispatch (some (.jObj fs)) = .legacy (legacyRender (some (.jObj fs)))
    ∧ sectionDispatch (some E8)
        = .legacy ⟨some (.jStr "moderate"), none, [.jStr "turbulence"], none, false⟩
    ∧ severityValue (legacyRender (some E8)).risk = 2
    ∧ riskToBadgeClass (legacyRender (some E8)).risk = "moderate" := by
  refine ⟨?_, rfl, rfl, rfl⟩
  simp [sectionDispatch, getProp, entriesOf, truthyO, herr, hbp]

/-- Witness for C8 at the spec's bare-leaf example response. -/
theorem C8_legacy_single_leaf_witness :
    sectionDispatch (some E8) = .legacy (legacyRender (some E8))
    ∧ severityValue (legacyRender (some E8)).risk = 2 :=
  ⟨(C8_legacy_single_leaf
      [("risk_level", .jStr "moderate"), ("flags", .jArr [.jStr "turbulence"])]
      rfl rfl).1,
   (C8_legacy_single_leaf
      [("risk_level", .jStr "moderate"), ("flags", .jArr [.jStr "turbulence"])]
      rfl rfl).2.2.1⟩

/-- A leaf whose `details` field is present but the empty string. -/
def d9 : JVal := .jObj [("details", .jStr "")]

/-- C9 (counterexample): a present `details` of `""` does not pass
through to the normalized leaf — it is collapsed to absent, so
`details` is not passed through unmodified for every leaf. -/
theorem C9_counterexample :
    getProp d9 "details" = some (.jStr "")
    ∧ (renderLeafAnalysis (some d9)).details = none
    ∧ (some (.jStr "") : Option JVal) ≠ none :=
  ⟨rfl, rfl, Option.some_ne_none _⟩

/-- C9 (amended): a missing `risk_level` becomes the string `unknown`;
missing or non-array `flags` become the empty sequence; a truthy
`details` value and a truthy part-level `raw_llm_response_text` value
pass through unmodified (no escaping), while a falsy `details` value is
collapsed to absent. -/
theorem C9_amended :
    (∀ fs : List (String × JVal), lookupField fs "risk_level" = none →
        (renderLeafAnalysis (some (.jObj fs))).risk = .jStr "unknown")
    ∧ (∀ fs : List (String × JVal), lookupField fs "flags" = none →
        (renderLeafAnalysis (some (.jObj fs))).flags = [])
    ∧ (∀ (fs : List (String × JVal)) (v : JVal),
        lookupField fs "flags" = some v → isArr v = false →
        (renderLeafAnalysis (some (.jObj fs))).flags = [])
    ∧ (∀ (fs : List (String × JVal)) (d : JVal),
        lookupField fs "details" = some d → truthy d = true →
        (renderLeafAnalysis (some (.jObj fs))).details = some d)
    ∧ (∀ (fs : List (String × JVal)) (d : JVal),
        lookupField fs "details" = some d → truthy d = false →
        (renderLeafAnalysis (some (.jObj fs))).details = none)
    ∧ (∀ (res v : JVal),
        getProp res "raw_llm_response_text" = some v → truthy v = true →
        rawTextOf res = some v) := by
  refine ⟨?_, ?_, ?_, ?_, ?_, ?_⟩
  · intro fs h
    simp [renderLeafAnalysis, propIfTruthy, getProp, entriesOf, truthy, jsOrV, h]
  · intro fs h
    simp [renderLeafAnalysis, getProp, entriesOf, truthy, h]
  · intro fs v h hv
    cases v <;>
      simp_all [renderLeafAnalysis, getProp, entriesOf, truthy, isArr, h]
  · intro fs d h hd
    simp [renderLeafAnalysis, propIfTruthy, getProp, entriesOf, truthy_jObj, h, hd]
  · intro fs d h hd
    simp [renderLeafAnalysis, propIfTruthy, getProp, entriesOf, truthy_jObj, h, hd]
  · intro res v h hv
    simp [rawTextOf, h, hv]

/-- Witness for C9's amended statement at concrete leaves. -/
theorem C9_amended_witness :
    (renderLeafAnalysis (some (.jObj [("details", .jStr "ok")]))).risk = .jStr "unknown"
    ∧ (renderLeafAnalysis (some (.jObj [("details", .jStr "ok")]))).details
        = some (.jStr "ok")
    ∧ (renderLeafAnalysis (some (.jObj [("flags", .jStr "notalist")]))).flags = []
    ∧ rawTextOf (.jObj [("raw_llm_response_text", .jStr "raw out")])
        = some (.jStr "raw out") :=
  ⟨C9_amended.1 [("details", .jStr "ok")] rfl,
   C9_amended.2.2.2.1 [("details", .jStr "ok")] (.jStr "ok") rfl rfl,
   C9_amended.2.2.1 [("flags", .jStr "notalist")] (.jStr "notalist") rfl rfl,
   C9_amended.2.2.2.2.2 _ (.jStr "raw out") rfl rfl⟩

/-- C10 (confirmed): normalization collapses falsy field values, not
only absent ones — an empty-string `risk_level` yields risk `unknown`
with severity 0, and an empty-string `details` is normalized to absent,
exactly as a missing `details` is. -/
theorem C10_falsy_collapse :
    (∀ fs : List (String × JVal), lookupField fs "risk_level" = some (.jStr "") →
        (renderLeafAnalysis (some (.jObj fs))).risk = .jStr "unknown"
        ∧ severityValue (some (renderLeafAnalysis (some (.jObj fs))).risk) = 0)
    ∧ (∀ fs : List (String × JVal), lookupField fs "details" = some (.jStr "") →
        (renderLeafAnalysis (some (.jObj fs))).details = none)
    ∧ (∀ fs : List (String × JVal), lookupField fs "details" = none →
        (renderLeafAnalysis (some (.jObj fs))).details = none) := by
  refine ⟨?_, ?_, ?_⟩
  · intro fs h
    have hr : (renderLeafAnalysis (some (.jObj fs))).risk = .jStr "unknown" := by
      simp [renderLeafAnalysis, propIfTruthy, getProp, entriesOf, truthy, jsOrV, h]
    exact ⟨hr, by rw [hr]; rfl⟩
  · intro fs h
    simp [renderLeafAnalysis, propIfTruthy, getProp, entriesOf, truthy, h]
  · intro fs h
    simp [renderLeafAnalysis, propIfTruthy, getProp, entriesOf, truthy, h]

/-- Witness for C10 at concrete leaves with empty-string fields. -/
theorem C10_falsy_collapse_witness :
    (renderLeafAnalysis (some (.jObj [("risk_level", .jStr "")]))).risk = .jStr "unknown"
    ∧ severityValue (some (renderLeafAnalysis (some (.jObj [("risk_level", .jStr "")]))).risk) = 0
    ∧ (renderLeafAnalysis (some (.jObj [("details", .jStr ""), ("risk_level", .jStr "low")]))).details
        = none :=
  ⟨(C10_falsy_collapse.1 [("risk_level", .jStr "")] rfl).1,
   (C10_falsy_collapse.1 [("risk_level", .jStr "")] rfl).2,
   C10_falsy_collapse.2.1 [("details", .jStr ""), ("risk_level", .jStr "low")] rfl⟩

end FplGuru
